import Mathlib

/-!
Shallow embedding of `src/main.py` (CCXT Playground, a CLI tool that tests
CCXT exchange endpoints).  Python values that can appear as prompted
parameter values or capability-map entries are modelled by `PyVal`;
the wrapped exchange client instance is modelled by `ExchangeInstance`
(only the attributes the tool reads); the tool's own mutable state
(`self.exchange`, `self.exchange_instance`, `self._api_key`, `self._secret`)
by `TesterState`.  Persisted JSON documents are modelled by `Json`.
-/

/-- Python values relevant to the tool: `None`, booleans, ints and strings.
These are the values produced by parameter coercion and the values found in
an exchange's `has` capability dictionary. -/
inductive PyVal where
  | none
  | bool (b : Bool)
  | int (n : ℤ)
  | str (s : String)
deriving DecidableEq, Repr

/-- Support status of one endpoint, as bucketed by
`check_supported_endpoints` (src/main.py lines 280-295). -/
inductive SupportStatus where
  | supported
  | emulated
  | not_supported
deriving DecidableEq, Repr

/-- A Python dict like the `has` capability map, as an association list
(`dict` iteration/order details are irrelevant to key lookup). -/
abbrev HasDict := List (String × PyVal)

/-- The classification rule applied to one capability-map entry in
`check_supported_endpoints` (src/main.py lines 285-295): an absent key is
not supported; the value `True` (Python `is True`) is supported; the exact
string `"emulated"` is emulated; any other value is not supported. -/
def classifyCapability : Option PyVal → SupportStatus
  | Option.none => SupportStatus.not_supported
  | Option.some v =>
      if v = PyVal.bool true then SupportStatus.supported
      else if v = PyVal.str "emulated" then SupportStatus.emulated
      else SupportStatus.not_supported

/-- The inner loop of `check_supported_endpoints` (src/main.py lines
285-295): distribute a category's endpoint names over the three buckets
`(supported, emulated, not_supported)`, preserving iteration order. -/
def bucketize (has : HasDict) : List String → List String × List String × List String
  | [] => ([], [], [])
  | e :: rest =>
      let b := bucketize has rest
      match List.lookup e has with
      | Option.some v =>
          if v = PyVal.bool true then (e :: b.1, b.2.1, b.2.2)
          else if v = PyVal.str "emulated" then (b.1, e :: b.2.1, b.2.2)
          else (b.1, b.2.1, e :: b.2.2)
      | Option.none => (b.1, b.2.1, e :: b.2.2)

/-- The fixed category table of `check_supported_endpoints`
(src/main.py lines 230-278). -/
def categories : List (String × List String) :=
  [ ("Market Data",
      ["fetchMarkets", "fetchCurrencies", "fetchTicker", "fetchTickers",
       "fetchOrderBook", "fetchOHLCV", "fetchTrades", "fetchStatus"]),
    ("Trading",
      ["createOrder", "cancelOrder", "cancelAllOrders", "editOrder",
       "fetchOrder", "fetchOrders", "fetchOpenOrders", "fetchClosedOrders"]),
    ("Account",
      ["fetchBalance", "fetchMyTrades", "fetchLedger", "fetchTransactions",
       "fetchDeposits", "fetchWithdrawals", "fetchDepositAddress"]),
    ("Advanced",
      ["fetchPositions", "fetchFundingRate", "fetchFundingHistory",
       "fetchBorrowRate", "fetchTradingFee", "fetchTradingFees"]),
    ("WebSocket",
      ["ws", "watchTicker", "watchTickers", "watchOrderBook", "watchTrades",
       "watchOHLCV", "watchBalance", "watchOrders"]) ]

/-- Per-category buckets, as computed by the loop at src/main.py lines
280-295: category name paired with its three buckets. -/
def checkBuckets (has : HasDict) :
    List (String × (List String × List String × List String)) :=
  categories.map (fun ce => (ce.1, bucketize has ce.2))

/-- `total_supported` (src/main.py line 329). -/
def total_supported (has : HasDict) : ℕ :=
  ((checkBuckets has).map (fun cb => cb.2.1.length)).sum

/-- `total_emulated` (src/main.py line 330). -/
def total_emulated (has : HasDict) : ℕ :=
  ((checkBuckets has).map (fun cb => cb.2.2.1.length)).sum

/-- `total_not_supported` (src/main.py line 331). -/
def total_not_supported (has : HasDict) : ℕ :=
  ((checkBuckets has).map (fun cb => cb.2.2.2.length)).sum

/-- `total_checked` (src/main.py line 334). -/
def total_checked (has : HasDict) : ℕ :=
  total_supported has + total_emulated has + total_not_supported has

/-- The displayed percentage `(count/total_checked)*100` before the `.1f`
format rounding (src/main.py lines 345, 350, 355), over ℚ. -/
def pctOf (count total : ℕ) : ℚ := ((count : ℚ) / (total : ℚ)) * 100

/-- Rounding to one decimal place, modelling Python's `.1f`/`round(x, 1)`
(Python uses round-half-even on binary floats; every bound proved below
only uses that the result is within 1/20 of the argument, which holds for
any rounding to the nearest tenth). -/
def roundTenth (q : ℚ) : ℚ := (round (q * 10) : ℤ) / 10

-- ### Session state (`CCXTEndpointTester`) and the wrapped client instance

/-- The attributes of the wrapped ccxt client instance that the tool reads
or writes: credentials (written by construction, cleared by `cleanup`),
the `has` capability map, `version`, `rateLimit` and the market symbols.
Attributes a given exchange class lacks are modelled as `Option.none`
(so `getattr(x, a, default)` falls back to the default). -/
structure ExchangeInstance where
  apiKey : Option String
  secret : Option String
  has : HasDict
  version : Option String
  rateLimit : Option ℤ
  markets : List String
deriving DecidableEq, Repr

/-- The mutable fields of `CCXTEndpointTester` (src/main.py lines 27-32):
`self.exchange`, `self.exchange_instance`, `self._api_key`, `self._secret`.
Python `None` is `Option.none`. -/
structure TesterState where
  exchange : Option String
  exchange_instance : Option ExchangeInstance
  api_key : Option String
  secret : Option String
deriving DecidableEq, Repr

/-- `CCXTEndpointTester.__init__` (src/main.py lines 27-32). -/
def initState : TesterState :=
  { exchange := Option.none, exchange_instance := Option.none,
    api_key := Option.none, secret := Option.none }

/-- Python truthiness of an optional string: `None` and `""` are falsy. -/
def truthyOptStr : Option String → Bool
  | Option.none => false
  | Option.some s => !s.isEmpty

/-- `_clear_credentials` (src/main.py lines 34-39): each credential is reset
to `None` only when it is currently truthy. -/
def clear_credentials (st : TesterState) : TesterState :=
  let st1 := if truthyOptStr st.api_key then { st with api_key := Option.none } else st
  if truthyOptStr st1.secret then { st1 with secret := Option.none } else st1

/-- `cleanup` (src/main.py lines 894-904): clear the stored credentials,
null out the instance's credential attributes when present, then drop the
instance and the exchange name. -/
def cleanup (st : TesterState) : TesterState :=
  let st1 := clear_credentials st
  let st2 :=
    match st1.exchange_instance with
    | Option.some inst =>
        { st1 with exchange_instance :=
            Option.some { inst with apiKey := Option.none, secret := Option.none } }
    | Option.none => st1
  { st2 with exchange_instance := Option.none, exchange := Option.none }

/-- Outcome of the externally visible effects inside `setup_exchange`:
constructing the client either raises, or succeeds with `load_markets`
either raising (caught internally, warning only) or succeeding. -/
inductive SetupResult where
  | constructError
  | loadMarketsError
  | ok
deriving DecidableEq, Repr

/-- `setup_exchange` (src/main.py lines 88-133).  The credentials are
stored into `_api_key`/`_secret` first; if constructing the client raises,
the except-branch re-raises (`raise`, line 133), which we model as a
`false` success flag with the partially updated state; a `load_markets`
failure is caught internally (lines 119-125) and still counts as success. -/
def setup_exchange (st : TesterState) (exchange_name api_key secret : String)
    (r : SetupResult) (inst : ExchangeInstance) : TesterState × Bool :=
  let st1 := { st with api_key := Option.some api_key, secret := Option.some secret }
  match r with
  | SetupResult.constructError => (st1, false)
  | _ =>
      ({ st1 with
          exchange_instance := Option.some inst,
          exchange := Option.some exchange_name }, true)

-- ### Parameter prompting and coercion (`test_endpoint`, src/main.py 722-765)

/-- One decimal digit of a Python int literal. -/
def digitVal (c : Char) : Option ℤ :=
  if c.isDigit then Option.some ((c.toNat - 48 : ℕ) : ℤ) else Option.none

/-- Digits of a Python int literal after the first one: decimal digits with
single underscores allowed between digits. -/
def pyDigitsAux : ℤ → List Char → Option ℤ
  | acc, [] => Option.some acc
  | acc, Char.ofNat 95 :: c :: rest =>
      match digitVal c with
      | Option.some d => pyDigitsAux (acc * 10 + d) rest
      | Option.none => Option.none
  | acc, c :: rest =>
      match digitVal c with
      | Option.some d => pyDigitsAux (acc * 10 + d) rest
      | Option.none => Option.none

/-- An unsigned Python int literal: at least one digit, leading digit
required (no leading underscore). -/
def pyParseUnsigned : List Char → Option ℤ
  | [] => Option.none
  | c :: rest =>
      match digitVal c with
      | Option.some d => pyDigitsAux d rest
      | Option.none => Option.none

/-- Python `int(s)` on a string: strip surrounding whitespace, optional
sign, then a decimal literal; `Option.none` models `ValueError`. -/
def pyParseInt (s : String) : Option ℤ :=
  let cs := ((s.toList.dropWhile Char.isWhitespace).reverse.dropWhile Char.isWhitespace).reverse
  match cs with
  | '+' :: rest => pyParseUnsigned rest
  | '-' :: rest => (pyParseUnsigned rest).map (fun n => -n)
  | _ => pyParseUnsigned cs

/-- Python `int(q)` on a non-negative float value: truncation toward zero,
which on non-negative arguments is the floor.  The clock value
`time.time()` is modelled as an exact rational number of seconds. -/
def pyTruncRat (q : ℚ) : ℤ :=
  if 0 ≤ q then ⌊q⌋ else -⌊-q⌋

/-- `int(time.time() * 1000)` (src/main.py line 747): the epoch-millisecond
value produced for `since="now"` when the wall clock reads `t` seconds. -/
def sinceNow (t : ℚ) : ℤ := pyTruncRat (t * 1000)

/-- Python `str.lower()`: lowercase each character. -/
def pyLower (s : String) : String := String.mk (s.data.map Char.toLower)

/-- The per-parameter coercion applied to the prompted raw string
(src/main.py lines 722-760): `symbol` keeps the raw string; `limit` is
`int`-coerced with the raw string kept on failure; `since` maps `"now"`
(case-insensitively) to `now_ms` and otherwise `int`-coerces with the raw
string kept on failure; every other parameter maps the case-insensitive
literals `none`/`true`/`false` and otherwise keeps the raw string. -/
def coerce_param (now_ms : ℤ) (param : String) (value : String) : PyVal :=
  if param = "symbol" then PyVal.str value
  else if param = "limit" then
    match pyParseInt value with
    | Option.some n => PyVal.int n
    | Option.none => PyVal.str value
  else if param = "since" then
    if pyLower value = "now" then PyVal.int now_ms
    else
      match pyParseInt value with
      | Option.some n => PyVal.int n
      | Option.none => PyVal.str value
  else
    if pyLower value = "none" then PyVal.none
    else if pyLower value = "true" then PyVal.bool true
    else if pyLower value = "false" then PyVal.bool false
    else PyVal.str value

/-- The parameter-collection loop of `test_endpoint` (src/main.py lines
719-765): iterate over the declared parameter names in order; the coerced
value of `symbol`, `limit` or `since` is appended to the positional `args`,
every other value is recorded in `kwargs` under its parameter name. -/
def collect_params (now_ms : ℤ) (inputs : String → String) :
    List String → List PyVal × List (String × PyVal)
  | [] => ([], [])
  | p :: rest =>
      let v := coerce_param now_ms p (inputs p)
      let acc := collect_params now_ms inputs rest
      if p = "symbol" ∨ p = "limit" ∨ p = "since" then (v :: acc.1, acc.2)
      else (acc.1, (p, v) :: acc.2)

-- ### Persisted JSON documents

/-- The JSON documents written under `responses/` (`json.dump` output).
`rat` carries the rounded percentage values of the capability summary. -/
inductive Json where
  | null
  | bool (b : Bool)
  | num (n : ℤ)
  | rat (q : ℚ)
  | str (s : String)
  | arr (xs : List Json)
  | obj (fields : List (String × Json))

/-- Serialization of a `PyVal` by `json.dump`. -/
def pyToJson : PyVal → Json
  | PyVal.none => Json.null
  | PyVal.bool b => Json.bool b
  | PyVal.int n => Json.num n
  | PyVal.str s => Json.str s

/-- An optional string attribute serialized by `json.dump` (`None → null`). -/
def jsonOfOptStr : Option String → Json
  | Option.none => Json.null
  | Option.some s => Json.str s

/-- Python `str()` of a parameter value, as used by
`', '.join(map(str, args))` (src/main.py line 781). -/
def pyStr : PyVal → String
  | PyVal.none => "None"
  | PyVal.bool true => "True"
  | PyVal.bool false => "False"
  | PyVal.int n => toString n
  | PyVal.str s => s

/-- A single quote character, written via its code point. -/
def pyQuote : String := String.singleton (Char.ofNat 39)

/-- Python `repr()` of a parameter value, as used when a dict is
interpolated into an f-string (string values are quoted). -/
def pyRepr : PyVal → String
  | PyVal.str s => pyQuote ++ s ++ pyQuote
  | v => pyStr v

/-- Comma-separated join, Python `", ".join`. -/
def joinComma : List String → String
  | [] => ""
  | [x] => x
  | x :: rest => x ++ ", " ++ joinComma rest

/-- Python `str()` of the `kwargs` dict, `\x7bkey: value, ...\x7d` with
`repr` applied to keys and values. -/
def pyStrKwargs (kwargs : List (String × PyVal)) : String :=
  "\x7b" ++ joinComma (kwargs.map (fun kv => pyRepr (PyVal.str kv.1) ++ ": " ++ pyRepr kv.2)) ++ "\x7d"

/-- The `"Method"` entry of `request_info`:
`f"\x7bendpoint\x7d(\x7b', '.join(map(str, args))\x7d, \x7bkwargs\x7d)"`
(src/main.py line 781). -/
def methodString (endpoint : String) (args : List PyVal)
    (kwargs : List (String × PyVal)) : String :=
  endpoint ++ "(" ++ joinComma (args.map pyStr) ++ ", " ++ pyStrKwargs kwargs ++ ")"

/-- `request_info` (src/main.py lines 776-782), serialized: exchange id,
endpoint name, positional arguments, keyword arguments, and the rendered
call string.  The stored credentials do not occur in it. -/
def buildRequestInfo (exchange : Option String) (endpoint : String)
    (args : List PyVal) (kwargs : List (String × PyVal)) : Json :=
  Json.obj
    [ ("Exchange", jsonOfOptStr exchange),
      ("Endpoint", Json.str endpoint),
      ("Arguments", Json.arr (args.map pyToJson)),
      ("Keyword Arguments", Json.obj (kwargs.map (fun kv => (kv.1, pyToJson kv.2)))),
      ("Method", Json.str (methodString endpoint args kwargs)) ]

/-- `getattr(self.exchange_instance, "has", \x7b\x7d)` (src/main.py
lines 216, 535). -/
def has_of (st : TesterState) : HasDict :=
  match st.exchange_instance with
  | Option.some inst => inst.has
  | Option.none => []

/-- `getattr(self.exchange_instance, "version", "Unknown")`
(src/main.py lines 423-425). -/
def api_version_of (st : TesterState) : String :=
  match st.exchange_instance with
  | Option.some inst => inst.version.getD "Unknown"
  | Option.none => "Unknown"

/-- `getattr(self.exchange_instance, "rateLimit", "Unknown")` serialized
(src/main.py lines 426-428): the integer attribute, or the string
`"Unknown"` when absent. -/
def rate_limit_json_of (st : TesterState) : Json :=
  match st.exchange_instance with
  | Option.some inst =>
      match inst.rateLimit with
      | Option.some n => Json.num n
      | Option.none => Json.str "Unknown"
  | Option.none => Json.str "Unknown"

/-- The per-category bucket dictionaries passed to
`_save_capability_info_to_file`, serialized (category name → name list). -/
def bucketDictJson (pick : List String × List String × List String → List String)
    (has : HasDict) : Json :=
  Json.obj ((checkBuckets has).map (fun cb => (cb.1, Json.arr ((pick cb.2).map Json.str))))

/-- The document written by `_save_capability_info_to_file` (src/main.py
lines 392-456): metadata (timestamp, exchange, description, api version,
rate limit, summary with totals and rounded percentages), the raw `has`
dictionary, and the categorized endpoint buckets. -/
def saveCapabilityDoc (st : TesterState) (timestamp : String) : Json :=
  let has := has_of st
  let tc := total_checked has
  Json.obj
    [ ("metadata", Json.obj
        [ ("timestamp", Json.str timestamp),
          ("exchange", jsonOfOptStr st.exchange),
          ("description", Json.str "Endpoint capability and support information"),
          ("api_version", Json.str (api_version_of st)),
          ("rate_limit", rate_limit_json_of st),
          ("summary", Json.obj
            [ ("total_checked", Json.num (tc : ℤ)),
              ("supported", Json.num (total_supported has : ℤ)),
              ("emulated", Json.num (total_emulated has : ℤ)),
              ("not_supported", Json.num (total_not_supported has : ℤ)),
              ("support_percentage",
                if 0 < tc then Json.rat (roundTenth (pctOf (total_supported has) tc))
                else Json.num 0),
              ("emulated_percentage",
                if 0 < tc then Json.rat (roundTenth (pctOf (total_emulated has) tc))
                else Json.num 0) ]) ]),
      ("raw_has_dictionary", Json.obj (has.map (fun kv => (kv.1, pyToJson kv.2)))),
      ("categorized_endpoints", Json.obj
        [ ("supported", bucketDictJson (fun b => b.1) has),
          ("emulated", bucketDictJson (fun b => b.2.1) has),
          ("not_supported", bucketDictJson (fun b => b.2.2) has) ]) ]

/-- The document written by `_save_endpoints_info_to_file` (src/main.py
lines 478-528): metadata plus the category → method-list mapping. -/
def saveEndpointsDoc (st : TesterState) (timestamp : String)
    (endpoints : List (String × List String)) : Json :=
  Json.obj
    [ ("metadata", Json.obj
        [ ("timestamp", Json.str timestamp),
          ("exchange", jsonOfOptStr st.exchange),
          ("description", Json.str "Available endpoints information"),
          ("total_endpoints",
            Json.num ((endpoints.map (fun ce => ce.2.length)).sum : ℤ)) ]),
      ("endpoints", Json.obj
        (endpoints.map (fun ce => (ce.1, Json.arr (ce.2.map Json.str))))) ]

/-- The document written by `_save_response_to_file` (src/main.py lines
841-874): metadata (timestamp, exchange, endpoint, request info) plus the
raw response body. -/
def saveResponseDoc (st : TesterState) (timestamp : String) (endpoint : String)
    (args : List PyVal) (kwargs : List (String × PyVal)) (response : Json) : Json :=
  Json.obj
    [ ("metadata", Json.obj
        [ ("timestamp", Json.str timestamp),
          ("exchange", jsonOfOptStr st.exchange),
          ("endpoint", Json.str endpoint),
          ("request_info", buildRequestInfo st.exchange endpoint args kwargs) ]),
      ("response", response) ]

/-- The non-credential attributes of a client instance: everything the
persistence code can read from it. -/
def instNonCred (i : ExchangeInstance) : HasDict × Option String × Option ℤ × List String :=
  (i.has, i.version, i.rateLimit, i.markets)

/-- Two tester states that agree on everything except the credential
fields (`_api_key`, `_secret`, and the instance's `apiKey`/`secret`
attributes). -/
def credEquiv (st1 st2 : TesterState) : Prop :=
  st1.exchange = st2.exchange ∧
    Option.map instNonCred st1.exchange_instance
      = Option.map instNonCred st2.exchange_instance

-- ### Endpoint invocation (`test_endpoint`, src/main.py lines 697-839)

/-- Outcome of calling the chosen client method: a result value, or a
raised exception carrying its message (the `except Exception` branch at
src/main.py lines 833-839). -/
inductive InvokeOutcome where
  | ok (v : Json)
  | exc (msg : String)

/-- What `test_endpoint` did, as observable by the operator. -/
inductive TestResult where
  | noInstance
  | success (v : Json) (saved : Option Json)
  | errorShown (msg : String) (tracebackShown : Bool)

/-- All operator-supplied and external inputs consumed by one run of
`test_endpoint`: the chosen endpoint, its declared parameter list (after
dropping `self`), the prompted raw strings, the current epoch-millisecond
reading used for `since="now"`, the invocation outcome, whether the
operator confirms the save prompt, whether they ask for the traceback, and
the timestamp string used in the saved document. -/
structure TestInput where
  endpoint : String
  params : List String
  inputs : String → String
  now_ms : ℤ
  timestamp : String
  outcome : InvokeOutcome
  save : Bool
  wantTrace : Bool

/-- `test_endpoint` (src/main.py lines 697-839).  Without an instance it
only prints an error.  Otherwise it collects coerced parameters, invokes
the method, and on success optionally saves the response document; on an
exception it shows the message, optionally the traceback, and returns
normally.  No branch assigns to any `self` field, so the state is returned
unchanged. -/
def test_endpoint (st : TesterState) (ti : TestInput) : TesterState × TestResult :=
  match st.exchange_instance with
  | Option.none => (st, TestResult.noInstance)
  | Option.some _ =>
      let ak := collect_params ti.now_ms ti.inputs ti.params
      match ti.outcome with
      | InvokeOutcome.ok v =>
          (st, TestResult.success v
            (if ti.save
             then Option.some (saveResponseDoc st ti.timestamp ti.endpoint ak.1 ak.2 v)
             else Option.none))
      | InvokeOutcome.exc m => (st, TestResult.errorShown m ti.wantTrace)

/-- `_get_endpoint_support_status` (src/main.py lines 530-546): the
support-status glyph shown in the endpoint selector.  Absent keys get the
distinct "unknown" glyph, unlike the classification loop. -/
def get_endpoint_support_status (st : TesterState) (endpoint : String) : String :=
  match st.exchange_instance with
  | Option.none => ""
  | Option.some inst =>
      match List.lookup endpoint inst.has with
      | Option.some v =>
          if v = PyVal.bool true then "[green]✓[/green]"
          else if v = PyVal.str "emulated" then "[yellow]⚡[/yellow]"
          else "[red]✗[/red]"
      | Option.none => "[dim]?[/dim]"

-- ### The interactive loop (`main`, src/main.py lines 907-995)

/-- How a run of `main` ended: `normal` is menu choice 5, `interrupted` is
`KeyboardInterrupt`, `errored` is the `except Exception` handler (reached
in particular when `setup_exchange` re-raises), `pending` means the input
script ran out while the loop was still waiting for the operator. -/
inductive ExitKind where
  | normal
  | interrupted
  | errored
  | pending
deriving DecidableEq, Repr

/-- One operator interaction with the main menu (src/main.py lines
953-985), together with the external outcomes it triggers. -/
inductive MenuAction where
  | viewEndpoints
  | checkSupported
  | testEndpoint (sel : Option TestInput)
  | changeExchange (name api sec : String) (r : SetupResult) (inst : ExchangeInstance)
  | exitChoice
  | interrupt
  | unexpectedError

/-- The `while True` menu loop of `main` (src/main.py lines 953-985).
Choices 1-3 leave the loop running; choice 4 runs `cleanup` then
`setup_exchange`, and if setup re-raises the exception escapes the loop
into the top-level `except Exception` handler; choice 5 breaks; a
`KeyboardInterrupt` or an unexpected exception escapes to the
corresponding top-level handler. -/
def mainLoop (st : TesterState) : List MenuAction → TesterState × ExitKind
  | [] => (st, ExitKind.pending)
  | a :: rest =>
      match a with
      | MenuAction.viewEndpoints => mainLoop st rest
      | MenuAction.checkSupported => mainLoop st rest
      | MenuAction.testEndpoint Option.none => mainLoop st rest
      | MenuAction.testEndpoint (Option.some ti) => mainLoop (test_endpoint st ti).1 rest
      | MenuAction.changeExchange name api sec r inst =>
          let st1 := cleanup st
          let res := setup_exchange st1 name api sec r inst
          if res.2 then mainLoop res.1 rest else (res.1, ExitKind.errored)
      | MenuAction.exitChoice => (st, ExitKind.normal)
      | MenuAction.interrupt => (st, ExitKind.interrupted)
      | MenuAction.unexpectedError => (st, ExitKind.errored)

/-- A whole run of `main` (src/main.py lines 907-995): initial exchange
selection and setup, then the menu loop; whenever control leaves the
`try` block — normal break, `KeyboardInterrupt`, or any exception,
including one re-raised by `setup_exchange` — the `finally` block runs
`tester.cleanup()` before `main` returns and the process exits.  A
`pending` result means the loop is still blocked on operator input, so the
`finally` block has not run yet. -/
def mainRun (name api sec : String) (r : SetupResult) (inst : ExchangeInstance)
    (script : List MenuAction) : TesterState × ExitKind :=
  let setup := setup_exchange initState name api sec r inst
  if setup.2 then
    let res := mainLoop setup.1 script
    if res.2 = ExitKind.pending then res
    else (cleanup res.1, res.2)
  else (cleanup setup.1, ExitKind.errored)

/-- All credential fields read back as absent or empty: the tester's
stored key and secret are `None` or `""`, and no client instance (hence no
instance credential attribute) remains. -/
def credsCleared (st : TesterState) : Prop :=
  (st.api_key = Option.none ∨ st.api_key = Option.some "") ∧
  (st.secret = Option.none ∨ st.secret = Option.some "") ∧
  st.exchange_instance = Option.none

-- ### Concrete sample data used to instantiate the theorems below

/-- A sample client instance: a small capability map, a version, a rate
limit, two market symbols, and stored credentials. -/
def wInst : ExchangeInstance :=
  { apiKey := Option.some "KEY", secret := Option.some "SECRET",
    has := [("fetchTicker", PyVal.bool true), ("fetchOHLCV", PyVal.str "emulated"),
            ("fetchTrades", PyVal.bool false)],
    version := Option.some "1.0", rateLimit := Option.some 1000,
    markets := ["BTC/IDR", "ETH/IDR"] }

/-- A sample session holding `wInst` and credentials. -/
def wState : TesterState :=
  { exchange := Option.some "kraken", exchange_instance := Option.some wInst,
    api_key := Option.some "KEY", secret := Option.some "SECRET" }

/-- The same session as `wState` except for every credential field. -/
def wState2 : TesterState :=
  { exchange := Option.some "kraken",
    exchange_instance := Option.some
      { wInst with apiKey := Option.none, secret := Option.some "OTHER" },
    api_key := Option.some "DIFFERENTKEY", secret := Option.none }

/-- Prompt answers: `"10"` for `limit`, `"BTC/IDR"` for anything else. -/
def sampleInputs : String → String :=
  fun p => if p = "limit" then "10" else "BTC/IDR"

/-- A `test_endpoint` run whose invocation raises an exception with message
`"boom"` and where the operator asks for the traceback. -/
def wTIexc : TestInput :=
  { endpoint := "fetchTicker", params := ["symbol", "limit"],
    inputs := sampleInputs, now_ms := 0, timestamp := "2026-10-12T00:00:00",
    outcome := InvokeOutcome.exc "boom", save := false, wantTrace := true }
-- ### Characterization of `bucketize`

/-- Each bucket produced by the classification loop is the filter of the
category's endpoint list by the corresponding classification outcome. -/
theorem bucketize_eq (has : HasDict) (eps : List String) :
    bucketize has eps =
      (eps.filter
         (fun e => decide (classifyCapability (List.lookup e has) = SupportStatus.supported)),
       eps.filter
         (fun e => decide (classifyCapability (List.lookup e has) = SupportStatus.emulated)),
       eps.filter
         (fun e => decide (classifyCapability (List.lookup e has) = SupportStatus.not_supported))) := by
  induction eps with
  | nil => rfl
  | cons a rest ih =>
      simp only [bucketize, ih, List.filter_cons]
      cases hl : List.lookup a has with
      | none => simp [classifyCapability, hl]
      | some v =>
          by_cases hb : v = PyVal.bool true
          · subst hb
            simp [classifyCapability, hl]
          · by_cases he : v = PyVal.str "emulated"
            · subst he
              simp [classifyCapability, hl, hb]
            · simp [classifyCapability, hl, hb, he]

theorem bucketize_mem_supported (has : HasDict) (eps : List String) (e : String) :
    e ∈ (bucketize has eps).1 ↔
      e ∈ eps ∧ classifyCapability (List.lookup e has) = SupportStatus.supported := by
  rw [bucketize_eq]
  simp [List.mem_filter]

theorem bucketize_mem_emulated (has : HasDict) (eps : List String) (e : String) :
    e ∈ (bucketize has eps).2.1 ↔
      e ∈ eps ∧ classifyCapability (List.lookup e has) = SupportStatus.emulated := by
  rw [bucketize_eq]
  simp [List.mem_filter]

theorem bucketize_mem_not_supported (has : HasDict) (eps : List String) (e : String) :
    e ∈ (bucketize has eps).2.2 ↔
      e ∈ eps ∧ classifyCapability (List.lookup e has) = SupportStatus.not_supported := by
  rw [bucketize_eq]
  simp [List.mem_filter]

theorem filter_classify_length (has : HasDict) (eps : List String) :
    (eps.filter
       (fun e => decide (classifyCapability (List.lookup e has) = SupportStatus.supported))).length
    + (eps.filter
       (fun e => decide (classifyCapability (List.lookup e has) = SupportStatus.emulated))).length
    + (eps.filter
       (fun e => decide (classifyCapability (List.lookup e has) = SupportStatus.not_supported))).length
    = eps.length := by
  induction eps with
  | nil => rfl
  | cons a rest ih =>
      simp only [List.filter_cons]
      cases h : classifyCapability (List.lookup a has) with
      | supported => simp [h]; omega
      | emulated => simp [h]; omega
      | not_supported => simp [h]; omega

/-- Every endpoint of a category lands in exactly one bucket, so the three
bucket sizes add up to the category size. -/
theorem bucketize_length (has : HasDict) (eps : List String) :
    (bucketize has eps).1.length + (bucketize has eps).2.1.length
      + (bucketize has eps).2.2.length = eps.length := by
  rw [bucketize_eq]
  exact filter_classify_length has eps

-- ### Helper lemmas: totals, rounding, credentials, state projections

theorem bucket_totals (has : HasDict) (cs : List (String × List String)) :
    ((cs.map (fun ce => (ce.1, bucketize has ce.2))).map (fun cb => cb.2.1.length)).sum
    + ((cs.map (fun ce => (ce.1, bucketize has ce.2))).map (fun cb => cb.2.2.1.length)).sum
    + ((cs.map (fun ce => (ce.1, bucketize has ce.2))).map (fun cb => cb.2.2.2.length)).sum
    = (cs.map (fun ce => ce.2.length)).sum := by
  induction cs with
  | nil => rfl
  | cons c rest ih =>
      simp only [List.map_cons, List.sum_cons]
      have h := bucketize_length has c.2
      omega

theorem total_checked_eq_37 (has : HasDict) : total_checked has = 37 := by
  have h := bucket_totals has categories
  have h2 : (categories.map (fun ce => ce.2.length)).sum = 37 := by decide
  unfold total_checked total_supported total_emulated total_not_supported checkBuckets
  omega

theorem roundTenth_close (q : ℚ) : |roundTenth q - q| ≤ 1 / 20 := by
  unfold roundTenth
  have h := abs_sub_round (q * 10)
  have h2 : ((round (q * 10) : ℤ) : ℚ) / 10 - q = -((q * 10 - round (q * 10)) / 10) := by
    ring
  rw [h2, abs_neg, abs_div]
  have h3 : |(10 : ℚ)| = 10 := by norm_num
  rw [h3]
  linarith

theorem truthyOptStr_false_iff (o : Option String) :
    truthyOptStr o = false ↔ o = Option.none ∨ o = Option.some "" := by
  cases o with
  | none => simp [truthyOptStr]
  | some s =>
      simp [truthyOptStr]
      exact String.isEmpty_iff s

theorem clear_credentials_spec (st : TesterState) :
    ((clear_credentials st).api_key = Option.none
       ∨ (clear_credentials st).api_key = Option.some "") ∧
    ((clear_credentials st).secret = Option.none
       ∨ (clear_credentials st).secret = Option.some "") := by
  unfold clear_credentials
  by_cases h1 : truthyOptStr st.api_key = true
  · by_cases h2 : truthyOptStr st.secret = true
    · simp [h1, h2]
    · have h2f : truthyOptStr st.secret = false := by simpa using h2
      have h2v := (truthyOptStr_false_iff st.secret).mp h2f
      simp [h1, h2f]
      exact h2v
  · have h1f : truthyOptStr st.api_key = false := by simpa using h1
    have h1v := (truthyOptStr_false_iff st.api_key).mp h1f
    by_cases h2 : truthyOptStr st.secret = true
    · simp [h1f, h2]
      exact h1v
    · have h2f : truthyOptStr st.secret = false := by simpa using h2
      have h2v := (truthyOptStr_false_iff st.secret).mp h2f
      simp [h1f, h2f]
      exact ⟨h1v, h2v⟩

theorem cleanup_clears (st : TesterState) : credsCleared (cleanup st) := by
  have h := clear_credentials_spec st
  unfold cleanup credsCleared
  cases hin : (clear_credentials st).exchange_instance with
  | none =>
      simp only [hin]
      exact ⟨h.1, h.2, trivial⟩
  | some inst =>
      simp only [hin]
      exact ⟨h.1, h.2, trivial⟩

theorem credEquiv_reads (st1 st2 : TesterState) (h : credEquiv st1 st2) :
    st1.exchange = st2.exchange ∧ has_of st1 = has_of st2 ∧
    api_version_of st1 = api_version_of st2 ∧
    rate_limit_json_of st1 = rate_limit_json_of st2 := by
  obtain ⟨hex, hinst⟩ := h
  refine ⟨hex, ?_, ?_, ?_⟩ <;>
  · cases h1 : st1.exchange_instance with
    | none =>
        cases h2 : st2.exchange_instance with
        | none => simp [has_of, api_version_of, rate_limit_json_of, h1, h2]
        | some i2 => rw [h1, h2] at hinst; simp [Option.map] at hinst
    | some i1 =>
        cases h2 : st2.exchange_instance with
        | none => rw [h1, h2] at hinst; simp [Option.map] at hinst
        | some i2 =>
            rw [h1, h2] at hinst
            simp only [Option.map, Option.some.injEq, instNonCred,
              Prod.mk.injEq] at hinst
            simp [has_of, api_version_of, rate_limit_json_of, h1, h2,
              hinst.1, hinst.2.1, hinst.2.2.1]

-- ### Claim theorems

/-- C1: for every capability map and every method name in the fixed
checked set, the classification loop of `check_supported_endpoints`
buckets the name as follows: absent from the map → not supported; value
`True` → supported; value exactly `"emulated"` → emulated; any other
value → not supported (and in each case the name lands in no other
bucket). -/
theorem check_supported_endpoints_classification
    (has : HasDict) (cat : String) (eps : List String) (e : String)
    (hcat : (cat, eps) ∈ categories) (he : e ∈ eps) :
    (List.lookup e has = Option.none →
       e ∈ (bucketize has eps).2.2 ∧ e ∉ (bucketize has eps).1
         ∧ e ∉ (bucketize has eps).2.1) ∧
    (List.lookup e has = Option.some (PyVal.bool true) →
       e ∈ (bucketize has eps).1 ∧ e ∉ (bucketize has eps).2.1
         ∧ e ∉ (bucketize has eps).2.2) ∧
    (List.lookup e has = Option.some (PyVal.str "emulated") →
       e ∈ (bucketize has eps).2.1 ∧ e ∉ (bucketize has eps).1
         ∧ e ∉ (bucketize has eps).2.2) ∧
    (∀ v, List.lookup e has = Option.some v → v ≠ PyVal.bool true →
       v ≠ PyVal.str "emulated" →
       e ∈ (bucketize has eps).2.2 ∧ e ∉ (bucketize has eps).1
         ∧ e ∉ (bucketize has eps).2.1) := by
  refine ⟨?_, ?_, ?_, ?_⟩
  · intro h
    have hc : classifyCapability (List.lookup e has) = SupportStatus.not_supported := by
      rw [h]; rfl
    refine ⟨(bucketize_mem_not_supported has eps e).mpr ⟨he, hc⟩, ?_, ?_⟩
    · intro hmem
      have := ((bucketize_mem_supported has eps e).mp hmem).2
      rw [hc] at this
      exact SupportStatus.noConfusion this
    · intro hmem
      have := ((bucketize_mem_emulated has eps e).mp hmem).2
      rw [hc] at this
      exact SupportStatus.noConfusion this
  · intro h
    have hc : classifyCapability (List.lookup e has) = SupportStatus.supported := by
      rw [h]; rfl
    refine ⟨(bucketize_mem_supported has eps e).mpr ⟨he, hc⟩, ?_, ?_⟩
    · intro hmem
      have := ((bucketize_mem_emulated has eps e).mp hmem).2
      rw [hc] at this
      exact SupportStatus.noConfusion this
    · intro hmem
      have := ((bucketize_mem_not_supported has eps e).mp hmem).2
      rw [hc] at this
      exact SupportStatus.noConfusion this
  · intro h
    have hc : classifyCapability (List.lookup e has) = SupportStatus.emulated := by
      rw [h]; rfl
    refine ⟨(bucketize_mem_emulated has eps e).mpr ⟨he, hc⟩, ?_, ?_⟩
    · intro hmem
      have := ((bucketize_mem_supported has eps e).mp hmem).2
      rw [hc] at this
      exact SupportStatus.noConfusion this
    · intro hmem
      have := ((bucketize_mem_not_supported has eps e).mp hmem).2
      rw [hc] at this
      exact SupportStatus.noConfusion this
  · intro v h hv1 hv2
    have hc : classifyCapability (List.lookup e has) = SupportStatus.not_supported := by
      rw [h]
      simp [classifyCapability, hv1, hv2]
    refine ⟨(bucketize_mem_not_supported has eps e).mpr ⟨he, hc⟩, ?_, ?_⟩
    · intro hmem
      have := ((bucketize_mem_supported has eps e).mp hmem).2
      rw [hc] at this
      exact SupportStatus.noConfusion this
    · intro hmem
      have := ((bucketize_mem_emulated has eps e).mp hmem).2
      rw [hc] at this
      exact SupportStatus.noConfusion this

/-- C1 witness: in `wInst`'s capability map, `fetchTicker` (value `True`)
is bucketed as supported, and the absent `fetchStatus` as not supported,
within the Market Data category. -/
theorem check_supported_endpoints_classification_witness :
    ("Market Data",
      ["fetchMarkets", "fetchCurrencies", "fetchTicker", "fetchTickers",
       "fetchOrderBook", "fetchOHLCV", "fetchTrades", "fetchStatus"]) ∈ categories ∧
    "fetchTicker" ∈ (bucketize wInst.has
      ["fetchMarkets", "fetchCurrencies", "fetchTicker", "fetchTickers",
       "fetchOrderBook", "fetchOHLCV", "fetchTrades", "fetchStatus"]).1 ∧
    "fetchStatus" ∈ (bucketize wInst.has
      ["fetchMarkets", "fetchCurrencies", "fetchTicker", "fetchTickers",
       "fetchOrderBook", "fetchOHLCV", "fetchTrades", "fetchStatus"]).2.2 := by
  refine ⟨by decide, ?_, ?_⟩
  · exact ((check_supported_endpoints_classification wInst.has "Market Data"
      ["fetchMarkets", "fetchCurrencies", "fetchTicker", "fetchTickers",
       "fetchOrderBook", "fetchOHLCV", "fetchTrades", "fetchStatus"] "fetchTicker"
      (by decide) (by decide)).2.1 (by decide)).1
  · exact ((check_supported_endpoints_classification wInst.has "Market Data"
      ["fetchMarkets", "fetchCurrencies", "fetchTicker", "fetchTickers",
       "fetchOrderBook", "fetchOHLCV", "fetchTrades", "fetchStatus"] "fetchStatus"
      (by decide) (by decide)).1 (by decide)).1

/-- C2: the serialized documents written by `_save_response_to_file`,
`_save_capability_info_to_file` and `_save_endpoints_info_to_file` are
identical for any two tester states that differ only in the credential
fields; only the method name and the prompted (non-credential) arguments
appear in the request metadata. -/
theorem persisted_docs_credential_free (st1 st2 : TesterState)
    (h : credEquiv st1 st2) (ts endpoint : String) (args : List PyVal)
    (kwargs : List (String × PyVal)) (response : Json)
    (endpoints : List (String × List String)) :
    saveResponseDoc st1 ts endpoint args kwargs response
      = saveResponseDoc st2 ts endpoint args kwargs response ∧
    saveCapabilityDoc st1 ts = saveCapabilityDoc st2 ts ∧
    saveEndpointsDoc st1 ts endpoints = saveEndpointsDoc st2 ts endpoints := by
  obtain ⟨hex, hhas, hver, hrate⟩ := credEquiv_reads st1 st2 h
  refine ⟨?_, ?_, ?_⟩
  · simp [saveResponseDoc, buildRequestInfo, hex]
  · simp [saveCapabilityDoc, hex, hhas, hver, hrate]
  · simp [saveEndpointsDoc, hex]

/-- C2 witness: `wState` and `wState2` differ in every credential field
yet produce identical response, capability and endpoint documents. -/
theorem persisted_docs_credential_free_witness :
    credEquiv wState wState2 ∧
    wState.api_key ≠ wState2.api_key ∧ wState.secret ≠ wState2.secret ∧
    saveResponseDoc wState "2026-10-12T00:00:00" "fetchTicker"
        [PyVal.str "BTC/IDR"] [("params", PyVal.none)] Json.null
      = saveResponseDoc wState2 "2026-10-12T00:00:00" "fetchTicker"
        [PyVal.str "BTC/IDR"] [("params", PyVal.none)] Json.null ∧
    saveCapabilityDoc wState "2026-10-12T00:00:00"
      = saveCapabilityDoc wState2 "2026-10-12T00:00:00" ∧
    saveEndpointsDoc wState "2026-10-12T00:00:00" [("Public", ["fetch_time"])]
      = saveEndpointsDoc wState2 "2026-10-12T00:00:00" [("Public", ["fetch_time"])] := by
  have h := persisted_docs_credential_free wState wState2 ⟨rfl, rfl⟩
    "2026-10-12T00:00:00" "fetchTicker" [PyVal.str "BTC/IDR"]
    [("params", PyVal.none)] Json.null [("Public", ["fetch_time"])]
  exact ⟨⟨rfl, rfl⟩, by decide, by decide, h.1, h.2.1, h.2.2⟩

/-- C3 counterexample: a failure while constructing the client
(`SetupResult.constructError`) is fatal to the session — the run ends in
the top-level `except Exception` handler (`ExitKind.errored`, not
`ExitKind.normal`) without ever reaching the menu script, so the operator
cannot retry exchange selection.  Moreover a bad-credentials /
network-unreachable failure (`load_markets` raising) does NOT leave the
session without a usable client: the constructed instance is kept. -/
theorem setup_failure_fatal_counterexample :
    (mainRun "kraken" "key" "sec" SetupResult.constructError wInst
        [MenuAction.exitChoice]).2 = ExitKind.errored ∧
    ExitKind.errored ≠ ExitKind.normal ∧
    (setup_exchange initState "kraken" "key" "sec" SetupResult.loadMarketsError
        wInst).1.exchange_instance = Option.some wInst := by
  exact ⟨rfl, by decide, rfl⟩

/-- C3 (amended): a `load_markets` failure (bad credentials, network
unreachable) is non-fatal — `setup_exchange` still succeeds and the
session keeps the constructed client; but an exception while constructing
the client is re-raised, escapes to the top-level handler, and the program
terminates (after `cleanup`) rather than returning the operator to
exchange selection. -/
theorem setup_failure_behavior (name api sec : String) (inst : ExchangeInstance)
    (st : TesterState) (script : List MenuAction) :
    ((setup_exchange st name api sec SetupResult.loadMarketsError inst).2 = true ∧
     (setup_exchange st name api sec SetupResult.loadMarketsError inst).1.exchange_instance
       = Option.some inst ∧
     (setup_exchange st name api sec SetupResult.loadMarketsError inst).1.exchange
       = Option.some name) ∧
    ((mainRun name api sec SetupResult.constructError inst script).2 = ExitKind.errored ∧
     credsCleared (mainRun name api sec SetupResult.constructError inst script).1) := by
  refine ⟨⟨rfl, rfl, rfl⟩, ⟨rfl, ?_⟩⟩
  exact cleanup_clears _

/-- C4 counterexample: for the declared parameter list
`["limit", "symbol"]` the positional arguments are collected in
declaration order (`limit` first), not in the order `symbol`, `limit`,
`since` stated by the claim. -/
theorem positional_order_counterexample :
    (collect_params 0 sampleInputs ["limit", "symbol"]).1
      = [PyVal.int 10, PyVal.str "BTC/IDR"] ∧
    (collect_params 0 sampleInputs ["limit", "symbol"]).1
      ≠ [PyVal.str "BTC/IDR", PyVal.int 10] := by
  exact ⟨rfl, by decide⟩

/-- C4 (amended): `symbol`, `limit` and `since` are always passed
positionally in the order they appear in the declared parameter list, and
every other parameter is passed by keyword name. -/
theorem positional_params_follow_declaration_order
    (now_ms : ℤ) (inputs : String → String) (params : List String) :
    (collect_params now_ms inputs params).1
      = (params.filter (fun p => p == "symbol" || p == "limit" || p == "since")).map
          (fun p => coerce_param now_ms p (inputs p)) ∧
    (collect_params now_ms inputs params).2
      = (params.filter (fun p => !(p == "symbol" || p == "limit" || p == "since"))).map
          (fun p => (p, coerce_param now_ms p (inputs p))) := by
  induction params with
  | nil => exact ⟨rfl, rfl⟩
  | cons p rest ih =>
      simp only [collect_params, List.filter_cons]
      by_cases h : p = "symbol" ∨ p = "limit" ∨ p = "since"
      · have hb : (p == "symbol" || p == "limit" || p == "since") = true := by
          rcases h with h | h | h <;> simp [h]
        simp [h, hb, ih.1, ih.2]
      · push_neg at h
        have hb : (p == "symbol" || p == "limit" || p == "since") = false := by
          simp [h.1, h.2.1, h.2.2]
        have hp : ¬ (p = "symbol" ∨ p = "limit" ∨ p = "since") := by
          push_neg
          exact h
        simp [hp, hb, ih.1, ih.2]

/-- C5: after `cleanup()` every credential field reads back as absent or
empty (for any prior state, hence regardless of invocation outcome), and
every exit path of the interactive loop — normal exit, operator
interrupt, unexpected error, or a re-raised setup error — passes through
`cleanup()` (the `finally` block) before the process exits, leaving the
final state with cleared credentials. -/
theorem cleanup_and_exit_paths_clear_credentials :
    (∀ st : TesterState, credsCleared (cleanup st)) ∧
    (∀ (name api sec : String) (r : SetupResult) (inst : ExchangeInstance)
       (script : List MenuAction),
       (mainRun name api sec r inst script).2 ≠ ExitKind.pending →
       credsCleared (mainRun name api sec r inst script).1) := by
  refine ⟨cleanup_clears, ?_⟩
  intro name api sec r inst script hne
  simp only [mainRun] at hne ⊢
  by_cases hs : (setup_exchange initState name api sec r inst).2 = true
  · rw [if_pos hs] at hne ⊢
    by_cases hp : (mainLoop (setup_exchange initState name api sec r inst).1 script).2
        = ExitKind.pending
    · rw [if_pos hp] at hne
      exact absurd hp hne
    · rw [if_neg hp]
      exact cleanup_clears _
  · rw [if_neg hs] at hne ⊢
    exact cleanup_clears _

/-- C5 witness: a concrete full run (successful setup, then menu choice 5)
exits normally and ends with cleared credentials; `cleanup` of the
credential-holding state `wState` also clears everything. -/
theorem cleanup_and_exit_paths_clear_credentials_witness :
    (mainRun "kraken" "KEY" "SECRET" SetupResult.ok wInst [MenuAction.exitChoice]).2
        ≠ ExitKind.pending ∧
    credsCleared (mainRun "kraken" "KEY" "SECRET" SetupResult.ok wInst
        [MenuAction.exitChoice]).1 ∧
    credsCleared (cleanup wState) := by
  refine ⟨by decide, ?_, ?_⟩
  · exact cleanup_and_exit_paths_clear_credentials.2 "kraken" "KEY" "SECRET"
      SetupResult.ok wInst [MenuAction.exitChoice] (by decide)
  · exact cleanup_and_exit_paths_clear_credentials.1 wState

/-- C6: for every capability map, each checked method lands in exactly one
bucket; `total_checked` equals the sum of the three per-category totals
and equals 37, the size of the fixed checked set; the three displayed
percentages sum to exactly 100 before rounding, and to 100 within 3/20
after each is rounded to one decimal place. -/
theorem capability_summary_totals (has : HasDict) :
    total_checked has
      = total_supported has + total_emulated has + total_not_supported has ∧
    total_checked has = 37 ∧
    (∀ cat eps e, (cat, eps) ∈ categories → e ∈ eps →
       (e ∈ (bucketize has eps).1 ∨ e ∈ (bucketize has eps).2.1
          ∨ e ∈ (bucketize has eps).2.2) ∧
       ¬(e ∈ (bucketize has eps).1 ∧ e ∈ (bucketize has eps).2.1) ∧
       ¬(e ∈ (bucketize has eps).1 ∧ e ∈ (bucketize has eps).2.2) ∧
       ¬(e ∈ (bucketize has eps).2.1 ∧ e ∈ (bucketize has eps).2.2)) ∧
    pctOf (total_supported has) (total_checked has)
      + pctOf (total_emulated has) (total_checked has)
      + pctOf (total_not_supported has) (total_checked has) = 100 ∧
    |roundTenth (pctOf (total_supported has) (total_checked has))
      + roundTenth (pctOf (total_emulated has) (total_checked has))
      + roundTenth (pctOf (total_not_supported has) (total_checked has))
      - 100| ≤ 3 / 20 := by
  have h37 := total_checked_eq_37 has
  have htc0 : ((total_checked has : ℕ) : ℚ) ≠ 0 := by rw [h37]; norm_num
  have hsum : ((total_supported has : ℕ) : ℚ) + ((total_emulated has : ℕ) : ℚ)
      + ((total_not_supported has : ℕ) : ℚ) = ((total_checked has : ℕ) : ℚ) := by
    unfold total_checked
    push_cast
    ring
  have hpct : pctOf (total_supported has) (total_checked has)
      + pctOf (total_emulated has) (total_checked has)
      + pctOf (total_not_supported has) (total_checked has) = 100 := by
    unfold pctOf
    field_simp
    linarith [hsum]
  refine ⟨rfl, h37, ?_, hpct, ?_⟩
  · intro cat eps e hcat he
    have hs := bucketize_mem_supported has eps e
    have hm := bucketize_mem_emulated has eps e
    have hn := bucketize_mem_not_supported has eps e
    refine ⟨?_, ?_, ?_, ?_⟩
    · cases hcls : classifyCapability (List.lookup e has) with
      | supported => exact Or.inl (hs.mpr ⟨he, hcls⟩)
      | emulated => exact Or.inr (Or.inl (hm.mpr ⟨he, hcls⟩))
      | not_supported => exact Or.inr (Or.inr (hn.mpr ⟨he, hcls⟩))
    · rintro ⟨h1, h2⟩
      have e1 := (hs.mp h1).2
      have e2 := (hm.mp h2).2
      rw [e1] at e2
      exact SupportStatus.noConfusion e2
    · rintro ⟨h1, h2⟩
      have e1 := (hs.mp h1).2
      have e2 := (hn.mp h2).2
      rw [e1] at e2
      exact SupportStatus.noConfusion e2
    · rintro ⟨h1, h2⟩
      have e1 := (hm.mp h1).2
      have e2 := (hn.mp h2).2
      rw [e1] at e2
      exact SupportStatus.noConfusion e2
  · have r1 := roundTenth_close (pctOf (total_supported has) (total_checked has))
    have r2 := roundTenth_close (pctOf (total_emulated has) (total_checked has))
    have r3 := roundTenth_close (pctOf (total_not_supported has) (total_checked has))
    have key : roundTenth (pctOf (total_supported has) (total_checked has))
        + roundTenth (pctOf (total_emulated has) (total_checked has))
        + roundTenth (pctOf (total_not_supported has) (total_checked has)) - 100
      = (roundTenth (pctOf (total_supported has) (total_checked has))
            - pctOf (total_supported has) (total_checked has))
        + (roundTenth (pctOf (total_emulated has) (total_checked has))
            - pctOf (total_emulated has) (total_checked has))
        + (roundTenth (pctOf (total_not_supported has) (total_checked has))
            - pctOf (total_not_supported has) (total_checked has)) := by
      linarith [hpct]
    rw [key]
    have habs := abs_add_three
      (roundTenth (pctOf (total_supported has) (total_checked has))
        - pctOf (total_supported has) (total_checked has))
      (roundTenth (pctOf (total_emulated has) (total_checked has))
        - pctOf (total_emulated has) (total_checked has))
      (roundTenth (pctOf (total_not_supported has) (total_checked has))
        - pctOf (total_not_supported has) (total_checked has))
    linarith [habs, r1, r2, r3]

/-- C6 witness: for `wInst`'s capability map the totals add to 37 and the
concrete endpoint `fetchTicker` lands in one of the three buckets of the
Market Data category. -/
theorem capability_summary_totals_witness :
    total_checked wInst.has = 37 ∧
    ("Market Data",
      ["fetchMarkets", "fetchCurrencies", "fetchTicker", "fetchTickers",
       "fetchOrderBook", "fetchOHLCV", "fetchTrades", "fetchStatus"]) ∈ categories ∧
    ("fetchTicker" ∈ (bucketize wInst.has
        ["fetchMarkets", "fetchCurrencies", "fetchTicker", "fetchTickers",
         "fetchOrderBook", "fetchOHLCV", "fetchTrades", "fetchStatus"]).1 ∨
     "fetchTicker" ∈ (bucketize wInst.has
        ["fetchMarkets", "fetchCurrencies", "fetchTicker", "fetchTickers",
         "fetchOrderBook", "fetchOHLCV", "fetchTrades", "fetchStatus"]).2.1 ∨
     "fetchTicker" ∈ (bucketize wInst.has
        ["fetchMarkets", "fetchCurrencies", "fetchTicker", "fetchTickers",
         "fetchOrderBook", "fetchOHLCV", "fetchTrades", "fetchStatus"]).2.2) := by
  have h := capability_summary_totals wInst.has
  exact ⟨h.2.1, by decide,
    (h.2.2.1 "Market Data"
      ["fetchMarkets", "fetchCurrencies", "fetchTicker", "fetchTickers",
       "fetchOrderBook", "fetchOHLCV", "fetchTrades", "fetchStatus"]
      "fetchTicker" (by decide) (by decide)).1⟩

/-- C7: the `limit` prompt answer is coerced to an integer exactly when it
parses as a Python int; otherwise the raw string is passed through
unchanged and the failed coercion raises nothing (the coercion is a total
function); in particular `"abc"` stays the string `"abc"`. -/
theorem limit_coercion_total (now_ms : ℤ) (s : String) :
    ((∃ n, pyParseInt s = Option.some n
        ∧ coerce_param now_ms "limit" s = PyVal.int n) ∨
     (pyParseInt s = Option.none
        ∧ coerce_param now_ms "limit" s = PyVal.str s)) ∧
    coerce_param now_ms "limit" "abc" = PyVal.str "abc" ∧
    pyParseInt "abc" = Option.none := by
  refine ⟨?_, rfl, rfl⟩
  have hchain : coerce_param now_ms "limit" s =
      match pyParseInt s with
      | Option.some n => PyVal.int n
      | Option.none => PyVal.str s := rfl
  cases h : pyParseInt s with
  | none =>
      right
      refine ⟨rfl, ?_⟩
      rw [hchain, h]
  | some n =>
      left
      refine ⟨n, rfl, ?_⟩
      rw [hchain, h]

/-- C8 counterexample: two `since="now"` conversions made at strictly
later wall-clock times within the same millisecond yield the same
integer, not a strictly larger one. -/
theorem since_now_same_millisecond_counterexample :
    (1700000000 + 1 / 10000 : ℚ) < 1700000000 + 2 / 10000 ∧
    sinceNow (1700000000 + 1 / 10000) = sinceNow (1700000000 + 2 / 10000) ∧
    ¬ sinceNow (1700000000 + 1 / 10000) < sinceNow (1700000000 + 2 / 10000) := by
  have e1 : sinceNow (1700000000 + 1 / 10000) = 1700000000000 := by
    unfold sinceNow pyTruncRat
    rw [if_pos (by norm_num)]
    rw [Int.floor_eq_iff]
    norm_num
  have e2 : sinceNow (1700000000 + 2 / 10000) = 1700000000000 := by
    unfold sinceNow pyTruncRat
    rw [if_pos (by norm_num)]
    rw [Int.floor_eq_iff]
    norm_num
  refine ⟨by norm_num, ?_, ?_⟩
  · rw [e1, e2]
  · rw [e1, e2]
    omega

/-- C8 (amended): entering `now` (case-insensitively) for `since` yields
`int(time.time() * 1000)`, the floor of the clock reading in
milliseconds; across calls this value is non-decreasing in wall-clock
time, strictly increasing when the later call is at least one millisecond
later, and positive whenever the clock reads at least one millisecond
past the epoch. -/
theorem since_now_monotone (t1 t2 : ℚ) (s : String)
    (h0 : 0 ≤ t1) (hs : pyLower s = "now") :
    coerce_param (sinceNow t1) "since" s = PyVal.int (sinceNow t1) ∧
    sinceNow t1 = ⌊t1 * 1000⌋ ∧
    (t1 ≤ t2 → sinceNow t1 ≤ sinceNow t2) ∧
    (t1 + 1 / 1000 ≤ t2 → sinceNow t1 < sinceNow t2) ∧
    (1 / 1000 ≤ t1 → 0 < sinceNow t1) := by
  have hfloor : ∀ t : ℚ, 0 ≤ t → sinceNow t = ⌊t * 1000⌋ := by
    intro t ht
    unfold sinceNow pyTruncRat
    rw [if_pos (by positivity)]
  refine ⟨?_, hfloor t1 h0, ?_, ?_, ?_⟩
  · have h1 : ("since" = "symbol") = False := by simp
    have h2 : ("since" = "limit") = False := by simp
    simp only [coerce_param, h1, h2, if_false, hs, if_true, if_pos]
  · intro hle
    rw [hfloor t1 h0, hfloor t2 (le_trans h0 hle)]
    exact Int.floor_mono (by linarith)
  · intro hlt
    have h02 : (0 : ℚ) ≤ t2 := by linarith
    rw [hfloor t1 h0, hfloor t2 h02]
    have step : ⌊t1 * 1000⌋ + 1 ≤ ⌊t2 * 1000⌋ := by
      rw [← Int.floor_add_one]
      exact Int.floor_mono (by linarith)
    omega
  · intro hms
    rw [hfloor t1 h0]
    have : (1 : ℤ) ≤ ⌊t1 * 1000⌋ := by
      rw [Int.le_floor]
      push_cast
      linarith
    omega

/-- C8 witness: at clock readings 1 s and 2 s, `"NOW"` maps to the
current epoch-millisecond value, which is strictly increasing and
positive. -/
theorem since_now_monotone_witness :
    (0 : ℚ) ≤ 1 ∧ pyLower "NOW" = "now" ∧
    coerce_param (sinceNow 1) "since" "NOW" = PyVal.int (sinceNow 1) ∧
    sinceNow 1 ≤ sinceNow 2 ∧ sinceNow 1 < sinceNow 2 ∧ 0 < sinceNow 1 := by
  have h := since_now_monotone 1 2 "NOW" (by norm_num) (by decide)
  exact ⟨by norm_num, by decide, h.1, h.2.2.1 (by norm_num),
    h.2.2.2.1 (by norm_num), h.2.2.2.2 (by norm_num)⟩

/-- C9: every exception raised by the invoked endpoint method is caught
by `test_endpoint`: the message is shown, the traceback is shown exactly
when the operator asks for it, the call returns normally, and the session
state (exchange, client instance, credentials) is returned unchanged. -/
theorem test_endpoint_catches_invocation_errors (st : TesterState)
    (ti : TestInput) (inst : ExchangeInstance) (msg : String)
    (hinst : st.exchange_instance = Option.some inst)
    (hout : ti.outcome = InvokeOutcome.exc msg) :
    test_endpoint st ti = (st, TestResult.errorShown msg ti.wantTrace) := by
  simp only [test_endpoint, hinst, hout]

/-- C9 witness: a concrete invocation of `fetchTicker` on `wState` that
raises `"boom"` returns normally with the message shown, the traceback
shown on request, and the state unchanged. -/
theorem test_endpoint_catches_invocation_errors_witness :
    wState.exchange_instance = Option.some wInst ∧
    wTIexc.outcome = InvokeOutcome.exc "boom" ∧
    test_endpoint wState wTIexc = (wState, TestResult.errorShown "boom" true) := by
  refine ⟨rfl, rfl, ?_⟩
  exact test_endpoint_catches_invocation_errors wState wTIexc wInst "boom" rfl rfl

/-- C10: for an endpoint name absent from the client's capability map the
selector's glyph function returns the distinct "unknown" marker, which
differs from the "not supported" marker, while the classification loop of
`check_supported_endpoints` buckets the same absent name as not
supported — the two classifications disagree on absent names. -/
theorem selector_glyph_unknown_vs_bucket (st : TesterState)
    (inst : ExchangeInstance) (e : String)
    (hinst : st.exchange_instance = Option.some inst)
    (habs : List.lookup e inst.has = Option.none) :
    get_endpoint_support_status st e = "[dim]?[/dim]" ∧
    get_endpoint_support_status st e ≠ "[red]✗[/red]" ∧
    classifyCapability (List.lookup e inst.has) = SupportStatus.not_supported ∧
    (∀ eps, e ∈ eps → e ∈ (bucketize inst.has eps).2.2) := by
  have hglyph : get_endpoint_support_status st e = "[dim]?[/dim]" := by
    simp only [get_endpoint_support_status, hinst, habs]
  refine ⟨hglyph, ?_, ?_, ?_⟩
  · rw [hglyph]
    decide
  · rw [habs]
    rfl
  · intro eps he
    refine (bucketize_mem_not_supported inst.has eps e).mpr ⟨he, ?_⟩
    rw [habs]
    rfl

/-- C10 witness: `watchTicker` is absent from `wInst`'s capability map;
the selector shows the unknown glyph for it while the classification loop
buckets it as not supported in the WebSocket category. -/
theorem selector_glyph_unknown_vs_bucket_witness :
    wState.exchange_instance = Option.some wInst ∧
    List.lookup "watchTicker" wInst.has = Option.none ∧
    get_endpoint_support_status wState "watchTicker" = "[dim]?[/dim]" ∧
    get_endpoint_support_status wState "watchTicker" ≠ "[red]✗[/red]" ∧
    "watchTicker" ∈ (bucketize wInst.has
      ["ws", "watchTicker", "watchTickers", "watchOrderBook", "watchTrades",
       "watchOHLCV", "watchBalance", "watchOrders"]).2.2 := by
  have h := selector_glyph_unknown_vs_bucket wState wInst "watchTicker" rfl rfl
  exact ⟨rfl, rfl, h.1, h.2.1, h.2.2.2
    ["ws", "watchTicker", "watchTickers", "watchOrderBook", "watchTrades",
     "watchOHLCV", "watchBalance", "watchOrders"] (by decide)⟩

/-- C3 witness: concrete instantiation of `setup_failure_behavior` — a
load-markets failure still yields a usable client, and a construction
failure ends the run in the error handler with credentials cleared. -/
theorem setup_failure_behavior_witness :
    (setup_exchange initState "kraken" "KEY" "SECRET"
        SetupResult.loadMarketsError wInst).2 = true ∧
    (mainRun "kraken" "KEY" "SECRET" SetupResult.constructError wInst
        [MenuAction.exitChoice]).2 = ExitKind.errored ∧
    credsCleared (mainRun "kraken" "KEY" "SECRET" SetupResult.constructError wInst
        [MenuAction.exitChoice]).1 := by
  have h := setup_failure_behavior "kraken" "KEY" "SECRET" wInst initState
    [MenuAction.exitChoice]
  exact ⟨h.1.1, h.2.1, h.2.2⟩

/-- C4 witness: concrete instantiation of
`positional_params_follow_declaration_order` on the parameter list
`["symbol", "limit", "params"]`. -/
theorem positional_params_follow_declaration_order_witness :
    (collect_params 0 sampleInputs ["symbol", "limit", "params"]).1
      = [PyVal.str "BTC/IDR", PyVal.int 10] ∧
    (collect_params 0 sampleInputs ["symbol", "limit", "params"]).2
      = [("params", PyVal.str "BTC/IDR")] := by
  have h := positional_params_follow_declaration_order 0 sampleInputs
    ["symbol", "limit", "params"]
  exact ⟨h.1.trans (by decide), h.2.trans (by decide)⟩

/-- C7 witness: concrete instantiations of `limit_coercion_total` — the
numeric string `"42"` is coerced to an integer, the non-numeric `"abc"`
is passed through unchanged. -/
theorem limit_coercion_total_witness :
    coerce_param 0 "limit" "abc" = PyVal.str "abc" ∧
    pyParseInt "abc" = Option.none ∧
    ((∃ n, pyParseInt "42" = Option.some n
        ∧ coerce_param 0 "limit" "42" = PyVal.int n) ∨
     (pyParseInt "42" = Option.none
        ∧ coerce_param 0 "limit" "42" = PyVal.str "42")) := by
  exact ⟨(limit_coercion_total 0 "abc").2.1, (limit_coercion_total 0 "abc").2.2,
    (limit_coercion_total 0 "42").1⟩
